import Mathlib

/-!
Verification of the conversion dispatch and converter core of the
file-converter web application (sources: `src/app.py`, `src/converters.py`).

The Python sources are shallowly embedded: pure data (the registry tables,
filename computations) becomes Lean data, converter control flow becomes
functions over explicit models of the external world (subprocess outcomes,
readable/unreadable inputs, file-system events), and raised exceptions
become `Except`/sum results carrying the exception message strings that the
source builds.
-/

namespace FileConv

/-! ## Format registry (src/app.py, lines 36-123)

`ALLOWED_EXTENSIONS` and `converters` are Python dict literals; they are
embedded as association lists in literal order.  For the `converters` dict
only the data relevant to the claims is kept per converter: its declared
`output_mimetype` property (a constant string in every converter class of
`src/converters.py`). -/

def ALLOWED_EXTENSIONS : List (String × List String) := [
  ("pdf_to_docx", ["pdf"]),
  ("docx_to_pdf", ["docx"]),
  ("doc_to_pdf", ["doc"]),
  ("pptx_to_pdf", ["pptx"]),
  ("pdf_to_txt", ["pdf"]),
  ("txt_to_pdf", ["txt"]),
  ("xlsx_to_csv", ["xlsx", "xls"]),
  ("csv_to_xlsx", ["csv"]),
  ("xlsx_to_pdf", ["xlsx", "xls"]),
  ("csv_to_pdf", ["csv"]),
  ("html_to_pdf", ["html", "htm"]),
  ("epub_to_pdf", ["epub"]),
  ("pdf_to_html", ["pdf"]),
  ("jpg_to_png", ["jpg", "jpeg"]),
  ("png_to_jpg", ["png"]),
  ("webp_to_jpg", ["webp"]),
  ("jpg_to_webp", ["jpg", "jpeg"]),
  ("image_to_pdf", ["jpg", "jpeg", "png", "webp", "bmp"]),
  ("pdf_to_png", ["pdf"]),
  ("bmp_to_png", ["bmp"]),
  ("mp3_to_wav", ["mp3"]),
  ("wav_to_mp3", ["wav"]),
  ("mp4_to_mp3", ["mp4"]),
  ("mp4_to_avi", ["mp4"]),
  ("avi_to_mp4", ["avi"]),
  ("mkv_to_mp4", ["mkv"]),
  ("mp4_to_webm", ["mp4"]),
  ("ogg_to_mp3", ["ogg"]),
  ("compress_pdf", ["pdf"]),
  ("merge_pdfs", ["pdf"]),
  ("merge_images", ["jpg", "jpeg", "png", "webp", "bmp"])]

/-- The `converters` dict of `src/app.py` (lines 82-123), in literal order,
each key paired with the `output_mimetype` declared by the converter class
it is instantiated with in `src/converters.py`. -/
def converterMimetypes : List (String × String) := [
  ("pdf_to_docx", "application/vnd.openxmlformats-officedocument.wordprocessingml.document"),
  ("docx_to_pdf", "application/pdf"),
  ("doc_to_pdf", "application/pdf"),
  ("pptx_to_pdf", "application/pdf"),
  ("pdf_to_txt", "text/plain"),
  ("txt_to_pdf", "application/pdf"),
  ("xlsx_to_csv", "text/csv"),
  ("csv_to_xlsx", "application/vnd.openxmlformats-officedocument.spreadsheetml.sheet"),
  ("xlsx_to_pdf", "application/pdf"),
  ("csv_to_pdf", "application/pdf"),
  ("html_to_pdf", "application/pdf"),
  ("epub_to_pdf", "application/pdf"),
  ("pdf_to_html", "text/html"),
  ("jpg_to_png", "image/png"),
  ("png_to_jpg", "image/jpeg"),
  ("webp_to_jpg", "image/jpeg"),
  ("jpg_to_webp", "image/webp"),
  ("image_to_pdf", "application/pdf"),
  ("pdf_to_png", "application/zip"),
  ("bmp_to_png", "image/png"),
  ("mp3_to_wav", "audio/wav"),
  ("wav_to_mp3", "audio/mpeg"),
  ("mp4_to_mp3", "audio/mpeg"),
  ("ogg_to_mp3", "audio/mpeg"),
  ("mp4_to_avi", "video/x-msvideo"),
  ("avi_to_mp4", "video/mp4"),
  ("mkv_to_mp4", "video/mp4"),
  ("mp4_to_webm", "video/webm"),
  ("compress_pdf", "application/pdf"),
  ("merge_pdfs", "application/pdf"),
  ("merge_images", "application/pdf")]

/-- The keys of the `converters` dict: `conversion_type in converters`. -/
def converterKeys : List String := converterMimetypes.map Prod.fst

/-- `ALLOWED_EXTENSIONS.get(conversion_type, set())` (src/app.py, line 130). -/
def acceptedExts (conversion_type : String) : List String :=
  (ALLOWED_EXTENSIONS.lookup conversion_type).getD []

/-- Python `str.lower()` on the character list of a string. -/
def pyLower (s : String) : String :=
  String.mk (s.data.map Char.toLower)

/-- `filename.rsplit('.', 1)[1].lower()` guarded by `'.' in filename`
(src/app.py, lines 127-129): the part after the last dot, lowercased,
or `none` when the filename has no dot. -/
def fileExtension (filename : String) : Option String :=
  if filename.data.contains '.' then
    some (pyLower (String.mk ((filename.data.reverse.takeWhile fun c => c != '.').reverse)))
  else
    none

/-- `allowed_file` (src/app.py, lines 125-130). -/
def allowed_file (filename conversion_type : String) : Bool :=
  match fileExtension filename with
  | none => false
  | some ext => (acceptedExts conversion_type).contains ext

/-- The client-facing outcome of the `/convert` route's validation sequence
(src/app.py, lines 137-181).  `invokeConverter ct` marks the point where the
code reaches `converter.convert(...)` (line 181); every other constructor is
a flash-message rejection issued before any converter runs. -/
inductive Outcome where
  | mergePdfsBranch
  | mergeImagesBranch
  | noFile
  | invalidType
  | unsupportedExtension
  | invokeConverter (conversion_type : String)
deriving DecidableEq, Repr

/-- The validation sequence of `convert_file` (src/app.py, lines 137-181):
merge types are diverted first (lines 144-147), then the empty-filename
check (line 158), the registry check (line 162) and the extension check
(line 166); only then is the resolved converter's `convert` invoked
(line 181). -/
def convert_file (conversion_type filename : String) : Outcome :=
  if conversion_type = "merge_pdfs" then .mergePdfsBranch
  else if conversion_type = "merge_images" then .mergeImagesBranch
  else if filename = "" then .noFile
  else if ¬ (converterKeys.contains conversion_type) then .invalidType
  else if ¬ allowed_file filename conversion_type then .unsupportedExtension
  else .invokeConverter conversion_type

/-! ## Multi-file upload validation (src/app.py, lines 223-245 and 292-318) -/

/-- Outcome of `handle_pdf_merge`'s validation, before the converter runs. -/
inductive MergeValidation where
  | tooFewUploaded
  | invalidFile (filename : String)
  | tooFewValid
  | accepted (files : List String)
deriving DecidableEq, Repr

/-- Python `s.endswith(suffix)`. -/
def pyEndsWith (s suffix : String) : Bool :=
  List.isSuffixOf suffix.data s.data

/-- The validation sequence of `handle_pdf_merge` (src/app.py, lines 227-245):
fewer than 2 uploads are rejected; the first non-empty filename not ending in
`.pdf` (case-insensitively) is rejected; empty filenames are dropped; fewer
than 2 remaining files are rejected; otherwise the survivors are passed to
`MergePDFsConverter.convert`. -/
def handle_pdf_merge_validate (uploaded : List String) : MergeValidation :=
  if uploaded.length < 2 then .tooFewUploaded
  else
    match uploaded.find? (fun f => (f != "") && !(pyEndsWith (pyLower f) ".pdf")) with
    | some f => .invalidFile f
    | none =>
      let pdf_files := uploaded.filter (fun f => f != "")
      if pdf_files.length < 2 then .tooFewValid
      else .accepted pdf_files

/-! ## PDF merge (src/converters.py, MergePDFsConverter, lines 1205-1264)

A PDF input is modelled as `Option (List α)`: `none` when `fitz.open`
raises (the input is logged and skipped by the `except` at line 1241), and
`some pages` for a document that opens with the given list of pages (`α`
abstracts a page's identity; `insert_pdf` appends all pages of the source
in order).  `.ok pages` models saving `merged_document.pdf` with exactly
those pages; `.error msg` models the exception raised at line 1247 before
any save, so no output file is produced on that path. -/

def MergePDFs_convert {α : Type _} (inputs : List (Option (List α))) :
    Except String (List α) :=
  let merged := inputs.foldl (fun acc src =>
    match src with
    | none => acc
    | some pages => acc ++ pages) ([] : List α)
  if merged.length = 0 then
    .error "PDF merge failed: No valid PDF pages found to merge"
  else
    .ok merged

/-! ## Image merge (src/converters.py, MergeImagesConverter, lines 1266-1332)

For the geometric claims an image is its pixel dimensions.  An unreadable
input (`Image.open` raises) is `none` and is skipped by the `except` at
line 1303. -/

structure Dim where
  width : Nat
  height : Nat
deriving DecidableEq, Repr

/-- `max_size = 2000` (src/converters.py, line 1294). -/
def max_size : Nat := 2000

/-- Pillow's `round_aspect` choice between `floor` and `ceil` of the exact
ratio `num / den`, picking the one closest to the exact value (`floor` on a
tie, since Python's `min` keeps the first of equally-keyed candidates). -/
def roundClosest (num den : Nat) : Nat :=
  let f := num / den
  let c := (num + den - 1) / den
  if num - f * den ≤ c * den - num then f else c

/-- Pillow's `round_aspect(number, key)`: the chosen rounding of
`num / den`, clamped below by 1. -/
def round_aspect (num den : Nat) : Nat :=
  max (roundClosest num den) 1

/-- Output size of `img.thumbnail((2000, 2000), Image.Resampling.LANCZOS)`
(src/converters.py, line 1296), following Pillow's documented
`Image.thumbnail` geometry (Pillow >= 10, pinned by requirements): no-op
when both dimensions already fit; otherwise the aspect ratio `w / h` is
preserved, the bounding side becomes 2000 and the other side is the
rounded proportional value, clamped below by 1.  The exact tie-breaking
metric of Pillow's `round_aspect` differs between branches and versions
but always yields the floor or the ceiling of the exact ratio; theorems
below only use bounds valid for either choice. -/
def thumbnailSize (d : Dim) : Dim :=
  if d.width ≤ max_size ∧ d.height ≤ max_size then d
  else if d.width ≤ d.height then
    ⟨round_aspect (max_size * d.width) d.height, max_size⟩
  else
    ⟨max_size, round_aspect (max_size * d.height) d.width⟩

/-- Per-image processing of `MergeImagesConverter.convert` (lines
1288-1296) at the dimension level: the RGB conversion keeps the size, and
the thumbnail call happens only under the size guard of line 1295. -/
def mergeProcessImage (d : Dim) : Dim :=
  if max_size < d.width ∨ max_size < d.height then thumbnailSize d else d

/-- The save shape of lines 1314-1324: a dedicated single-image save when
exactly one image survived, and a first-image save with `append_images`
otherwise. -/
inductive PdfSave (α : Type _) where
  | single (img : α)
  | multi (first : α) (rest : List α)
deriving DecidableEq, Repr

/-- The pages of the produced PDF document, in saved order. -/
def PdfSave.pages {α : Type _} : PdfSave α → List α
  | .single i => [i]
  | .multi f r => f :: r

/-- `MergeImagesConverter.convert` (lines 1273-1332) over dimensions:
readable inputs are processed in order, unreadable ones skipped; zero
survivors raise (wrapped at line 1332 to the message below) before any
output file exists; otherwise all survivors become the pages of
`merged_images.pdf` via the single- or multi-image save path. -/
def MergeImages_convert (inputs : List (Option Dim)) :
    Except String (PdfSave Dim) :=
  let images := inputs.filterMap (Option.map mergeProcessImage)
  match images with
  | [] => .error "Image merge failed: No valid images found to merge"
  | [i] => .ok (.single i)
  | f :: r => .ok (.multi f r)

/-! ## Pixel-level color model (for the normalization claims)

`src/converters.py` calls Pillow mode conversions; their effect on pixel
values is embedded here.  Conventions: an `RGBA` pixel uses all four
fields; `RGB` and `L` carry `a = 255`; `LA` and `L` store the luminance in
`r`; a `P` pixel stores its palette index in `r`. -/

structure Pixel where
  r : Nat
  g : Nat
  b : Nat
  a : Nat
deriving DecidableEq, Repr

inductive PilMode where
  | RGB
  | RGBA
  | LA
  | P
  | L
deriving DecidableEq, Repr

structure PilImage where
  mode : PilMode
  palette : List Pixel
  pixels : List Pixel
deriving DecidableEq, Repr

/-- The RGBA value denoted by one stored pixel of the given mode
(`P` looks its index up in the palette, whose entries may carry alpha). -/
def pixelToRGBA (pal : List Pixel) : PilMode → Pixel → Pixel
  | .RGB, p => ⟨p.r, p.g, p.b, 255⟩
  | .RGBA, p => p
  | .LA, p => ⟨p.r, p.r, p.r, p.a⟩
  | .L, p => ⟨p.r, p.r, p.r, 255⟩
  | .P, p => pal.getD p.r ⟨0, 0, 0, 255⟩

/-- Pillow `img.convert('RGB')`: each pixel's color bands are kept and any
alpha band is discarded — no compositing happens. -/
def pilConvertRGB (img : PilImage) : PilImage :=
  { mode := .RGB
    palette := []
    pixels := img.pixels.map fun p =>
      let q := pixelToRGBA img.palette img.mode p
      ⟨q.r, q.g, q.b, 255⟩ }

/-- Pillow `img.convert('RGBA')`. -/
def pilConvertRGBA (img : PilImage) : PilImage :=
  { mode := .RGBA
    palette := []
    pixels := img.pixels.map (pixelToRGBA img.palette img.mode) }

/-- One channel of `background.paste(img, mask=alpha)` over a white
background: the alpha-weighted average of 255 and the source channel,
rounded to nearest (Pillow's fixed-point blend). -/
def blendOnWhite (c a : Nat) : Nat :=
  (255 * (255 - a) + c * a + 127) / 255

/-- `Image.new('RGB', size, (255, 255, 255))` followed by
`background.paste(img, mask=<alpha band>)`: every pixel is composited
onto opaque white using its alpha. -/
def whiteComposite (img : PilImage) : PilImage :=
  { mode := .RGB
    palette := []
    pixels := img.pixels.map fun p =>
      let q := pixelToRGBA img.palette img.mode p
      ⟨blendOnWhite q.r q.a, blendOnWhite q.g q.a, blendOnWhite q.b q.a, 255⟩ }

/-- The normalization of `PNGToJPGConverter.convert` (src/converters.py,
lines 98-107; `WEBPToJPGConverter`, lines 1012-1020, is identical): RGBA
and LA images are pasted onto a white background with their alpha band as
mask; P images are first converted to RGBA and then pasted the same way;
any other non-RGB mode is plainly converted to RGB. -/
def PNGToJPG_normalize (img : PilImage) : PilImage :=
  match img.mode with
  | .RGBA => whiteComposite img
  | .LA => whiteComposite img
  | .P => whiteComposite (pilConvertRGBA img)
  | .RGB => img
  | .L => pilConvertRGB img

/-- The normalization of `JPGToPDFConverter.convert` (src/converters.py,
lines 470-473): a bare `img.convert('RGB')` for every non-RGB mode. -/
def JPGToPDF_normalize (img : PilImage) : PilImage :=
  if img.mode = .RGB then img else pilConvertRGB img

/-- The normalization of `MergeImagesConverter.convert` (src/converters.py,
lines 1288-1291): a bare `img.convert('RGB')` for every non-RGB mode. -/
def MergeImages_normalize (img : PilImage) : PilImage :=
  if img.mode = .RGB then img else pilConvertRGB img

/-! ## Subprocess-backed converters (src/converters.py)

`subprocess.run(cmd, capture_output=True, text=True, timeout=t)` is
modelled by a runner `List String → Nat → ProcResult` mapping the argument
vector and the timeout to either a completed process (return code and
captured stderr) or a `subprocess.TimeoutExpired`.  Worlds where the
binary itself is absent are outside this model.  `os.path.exists` is a
caller-supplied predicate.  The converters receive the precomputed
`base_name = os.path.splitext(os.path.basename(input_path))[0]`, which
every converter computes the same way. -/

inductive ProcResult where
  | completed (returncode : Int) (stderr : String)
  | timedOut
deriving DecidableEq, Repr

abbrev Runner := List String → Nat → ProcResult

inductive ConvOutcome where
  | ok (path : String)
  | error (msg : String)
deriving DecidableEq, Repr

/-- The ffmpeg argument vector of `MP4ToMP3Converter.convert`
(src/converters.py, lines 137-146). -/
def MP4ToMP3_cmd (input_path output_path : String) : List String :=
  ["ffmpeg", "-i", input_path, "-vn", "-acodec", "mp3", "-ab", "192k",
   "-ar", "44100", "-y", output_path]

/-- `MP4ToMP3Converter.convert` (src/converters.py, lines 130-171).
A non-zero exit raises `Audio conversion failed: {stderr}` which the
outer handler re-wraps once more with the same text; `TimeoutExpired` is
caught by its dedicated handler whose message is raised unwrapped. -/
def MP4ToMP3_convert (run : Runner) (fileExists : String → Bool)
    (input_path base_name output_dir : String) : ConvOutcome :=
  let output_path := output_dir ++ "/" ++ base_name ++ ".mp3"
  match run (MP4ToMP3_cmd input_path output_path) 300 with
  | .timedOut => .error "Conversion timed out. File may be too large."
  | .completed rc stderr =>
    if rc ≠ 0 then
      .error ("Audio conversion failed: Audio conversion failed: " ++ stderr)
    else if ¬ fileExists output_path then
      .error "Audio conversion failed: Converted file was not created"
    else
      .ok output_path

/-- The ffmpeg argument vector of `MP4ToAVIConverter.convert`
(src/converters.py, line 964). -/
def MP4ToAVI_cmd (input_path output_path : String) : List String :=
  ["ffmpeg", "-i", input_path, "-c:v", "libx264", "-c:a", "aac", "-y", output_path]

/-- `MP4ToAVIConverter.convert` (src/converters.py, lines 959-975).
`timeoutMsg` stands for Python's `str(subprocess.TimeoutExpired(...))`,
which the generic handler interpolates into its message. -/
def MP4ToAVI_convert (run : Runner) (timeoutMsg : String)
    (input_path base_name output_dir : String) : ConvOutcome :=
  let output_path := output_dir ++ "/" ++ base_name ++ ".avi"
  match run (MP4ToAVI_cmd input_path output_path) 600 with
  | .timedOut => .error ("Video conversion failed: " ++ timeoutMsg)
  | .completed rc stderr =>
    if rc ≠ 0 then
      .error ("Video conversion failed: FFmpeg error: " ++ stderr)
    else
      .ok output_path

/-- The LibreOffice argument vector of `DOCToPDFConverter.convert`
(src/converters.py, lines 291-297). -/
def libreofficeCmd (input_path output_dir : String) : List String :=
  ["libreoffice", "--headless", "--convert-to", "pdf", "--outdir", output_dir, input_path]

/-- Python truthiness of `content.strip()` being falsy: every character is
whitespace (the model uses the common whitespace characters covered by
`Char.isWhitespace`). -/
def pyStripIsEmpty (s : String) : Bool :=
  s.toList.all Char.isWhitespace

/-- The `'\n'.join(full_text)` of the document converters. -/
def pyJoin (sep : String) : List String → String
  | [] => ""
  | [x] => x
  | x :: y :: xs => x ++ sep ++ pyJoin sep (y :: xs)

/-- The python-docx fallback of `DOCToPDFConverter.convert`
(src/converters.py, lines 312-348): `docContent` is the result of reading
the document with python-docx and joining its paragraph texts (`.error m`
when the read raises with message `m`); an all-whitespace extraction
raises; otherwise reportlab builds the PDF and the final existence check
(line 350) runs. -/
def DOCToPDF_fallback (fileExists : String → Bool)
    (docContent : Except String String) (output_path : String) : ConvOutcome :=
  match docContent with
  | .error m => .error ("Document conversion failed: " ++ m)
  | .ok content =>
    if pyStripIsEmpty content then
      .error "Document conversion failed: Document appears to be empty"
    else if ¬ fileExists output_path then
      .error "Document conversion failed: PDF file was not created"
    else
      .ok output_path

/-- `DOCToPDFConverter.convert` (src/converters.py, lines 283-358).  The
LibreOffice attempt succeeds only on a zero exit with its output present
(lines 306-308); every other outcome — non-zero exit, missing output, or
`TimeoutExpired` — is caught by the broad handler at line 312 and routed
into the library fallback instead of failing. -/
def DOCToPDF_convert (run : Runner) (fileExists : String → Bool)
    (docContent : Except String String)
    (input_path base_name output_dir : String) : ConvOutcome :=
  let output_path := output_dir ++ "/" ++ base_name ++ ".pdf"
  let loSucceeded :=
    match run (libreofficeCmd input_path output_dir) 60 with
    | .completed rc _ => rc == 0 && fileExists output_path
    | .timedOut => false
  if loSucceeded then .ok output_path
  else DOCToPDF_fallback fileExists docContent output_path

/-! ## Empty-content document converters (for the EmptyContent claim) -/

/-- `TXTToPDFConverter.convert` (src/converters.py, lines 1341-1385),
given the text read from the input file.  The empty-content exception is
raised (and wrapped at line 1385) before the reportlab document bound to
`output_path` is even created, so the error branch writes no file; the
second component lists the files written in `output_dir`. -/
def TXTToPDF_convert (content base_name output_dir : String) :
    ConvOutcome × List String :=
  let output_path := output_dir ++ "/" ++ base_name ++ ".pdf"
  if pyStripIsEmpty content then
    (.error "Text conversion failed: Text file appears to be empty", [])
  else
    (.ok output_path, [output_path])

/-- `DOCXToPDFConverter.convert` (src/converters.py, lines 180-274), given
the paragraph texts python-docx extracts, on the primary reportlab path.
The empty-content exception (line 193) fires on the joined text before any
PDF is built, so the error branch writes no file. -/
def DOCXToPDF_convert (paragraphs : List String) (base_name output_dir : String) :
    ConvOutcome × List String :=
  let content := pyJoin "\n" paragraphs
  let output_path := output_dir ++ "/" ++ base_name ++ ".pdf"
  if pyStripIsEmpty content then
    (.error "Document conversion failed: Document appears to be empty", [])
  else
    (.ok output_path, [output_path])

/-! ## PDF to PNG (src/converters.py, PDFToPNGConverter, lines 25-85)

File paths are segment lists (`os.path.join` adds one segment); the
converter's effect on the working directory is a sequence of file-system
events folded over an initially empty set of converter-created files. -/

/-- Python `f"{n:03d}"`. -/
def pad3 (n : Nat) : String :=
  let s := toString n
  if s.length < 3 then String.mk (List.replicate (3 - s.length) '0') ++ s else s

/-- `f"{base_name}_page_{page_num + 1:03d}.png"` (line 55) for 0-based
page index `i`. -/
def pageFilename (base : String) (i : Nat) : String :=
  base ++ "_page_" ++ pad3 (i + 1) ++ ".png"

inductive FsOp where
  | create (path : List String)
  | rmtree (dir : List String)

/-- `d` is an initial segment chain of path `p` (so `shutil.rmtree d`
removes `p`). -/
def underDir : List String → List String → Bool
  | [], _ => true
  | _ :: _, [] => false
  | a :: as, b :: bs => a == b && underDir as bs

def applyFsOp (fs : List (List String)) : FsOp → List (List String)
  | .create p => fs ++ [p]
  | .rmtree d => fs.filter fun p => !underDir d p

def runFs (ops : List FsOp) : List (List String) :=
  ops.foldl applyFsOp []

/-- `png_dir = os.path.join(output_dir, f"{base_name}_pages")` (line 43). -/
def PDFToPNG_pngDir (output_dir base : String) : List String :=
  [output_dir, base ++ "_pages"]

/-- `zip_output_path = os.path.join(output_dir, f"{base_name}_pages.zip")`
(line 67). -/
def PDFToPNG_zipPath (output_dir base : String) : List String :=
  [output_dir, base ++ "_pages.zip"]

/-- The file-system events of `PDFToPNGConverter.convert` on a PDF with
`page_count` pages: one PNG per page saved under `png_dir` (lines 49-60),
the ZIP created in `output_dir` (lines 69-72), and `shutil.rmtree(png_dir)`
(line 76). -/
def PDFToPNG_ops (page_count : Nat) (output_dir base : String) : List FsOp :=
  ((List.range page_count).map fun i =>
    FsOp.create (PDFToPNG_pngDir output_dir base ++ [pageFilename base i]))
  ++ [FsOp.create (PDFToPNG_zipPath output_dir base),
      FsOp.rmtree (PDFToPNG_pngDir output_dir base)]

structure PDFToPNGResult where
  returnedPath : List String
  zipEntries : List String
  dirState : List (List String)
deriving DecidableEq, Repr

/-- `PDFToPNGConverter.convert` (lines 32-81): the returned path, the ZIP
entry names (`zipf.write(png_file, os.path.basename(png_file))`, line 72,
over the accumulated `png_files` list), and the converter-created files
remaining in the working directory after the cleanup. -/
def PDFToPNG_convert (page_count : Nat) (output_dir base : String) : PDFToPNGResult :=
  { returnedPath := PDFToPNG_zipPath output_dir base
    zipEntries := (List.range page_count).map (pageFilename base)
    dirState := runFs (PDFToPNG_ops page_count output_dir base) }

/-! ## Output filenames (for the naming claim)

Every single-input converter computes its output name from
`base_name = os.path.splitext(os.path.basename(input_path))[0]` by
appending a fixed suffix; the table below records that suffix per
conversion type, straight from each converter's f-string in
`src/converters.py`. -/

def outputSuffix (conversion_type : String) : Option String :=
  match conversion_type with
  | "pdf_to_docx" => some ".docx"
  | "docx_to_pdf" => some ".pdf"
  | "doc_to_pdf" => some ".pdf"
  | "pptx_to_pdf" => some ".pdf"
  | "pdf_to_txt" => some ".txt"
  | "txt_to_pdf" => some ".pdf"
  | "xlsx_to_csv" => some ".csv"
  | "csv_to_xlsx" => some ".xlsx"
  | "xlsx_to_pdf" => some ".pdf"
  | "csv_to_pdf" => some ".pdf"
  | "html_to_pdf" => some ".pdf"
  | "epub_to_pdf" => some ".pdf"
  | "pdf_to_html" => some ".html"
  | "jpg_to_png" => some ".png"
  | "png_to_jpg" => some ".jpg"
  | "webp_to_jpg" => some ".jpg"
  | "jpg_to_webp" => some ".webp"
  | "image_to_pdf" => some ".pdf"
  | "pdf_to_png" => some "_pages.zip"
  | "bmp_to_png" => some ".png"
  | "mp3_to_wav" => some ".wav"
  | "wav_to_mp3" => some ".mp3"
  | "mp4_to_mp3" => some ".mp3"
  | "ogg_to_mp3" => some ".mp3"
  | "mp4_to_avi" => some ".avi"
  | "avi_to_mp4" => some ".mp4"
  | "mkv_to_mp4" => some ".mp4"
  | "mp4_to_webm" => some ".webm"
  | "compress_pdf" => some "_compressed.pdf"
  | _ => none

/-- The filename a successful single-input conversion returns (the path is
this name joined under the working directory). -/
def outputFilename (conversion_type base : String) : Option String :=
  (outputSuffix conversion_type).map (base ++ ·)

/-- The target format extension of each single-input conversion type. -/
def targetExtension (conversion_type : String) : Option String :=
  match conversion_type with
  | "pdf_to_docx" => some "docx"
  | "docx_to_pdf" => some "pdf"
  | "doc_to_pdf" => some "pdf"
  | "pptx_to_pdf" => some "pdf"
  | "pdf_to_txt" => some "txt"
  | "txt_to_pdf" => some "pdf"
  | "xlsx_to_csv" => some "csv"
  | "csv_to_xlsx" => some "xlsx"
  | "xlsx_to_pdf" => some "pdf"
  | "csv_to_pdf" => some "pdf"
  | "html_to_pdf" => some "pdf"
  | "epub_to_pdf" => some "pdf"
  | "pdf_to_html" => some "html"
  | "jpg_to_png" => some "png"
  | "png_to_jpg" => some "jpg"
  | "webp_to_jpg" => some "jpg"
  | "jpg_to_webp" => some "webp"
  | "image_to_pdf" => some "pdf"
  | "pdf_to_png" => some "png"
  | "bmp_to_png" => some "png"
  | "mp3_to_wav" => some "wav"
  | "wav_to_mp3" => some "mp3"
  | "mp4_to_mp3" => some "mp3"
  | "ogg_to_mp3" => some "mp3"
  | "mp4_to_avi" => some "avi"
  | "avi_to_mp4" => some "mp4"
  | "mkv_to_mp4" => some "mp4"
  | "mp4_to_webm" => some "webm"
  | "compress_pdf" => some "pdf"
  | _ => none

/-- The registered conversion types whose converter takes a single input
(everything but the two merge aggregators). -/
def singleInputTypes : List String :=
  converterKeys.filter fun ct => (ct != "merge_pdfs") && (ct != "merge_images")

/-! ## Helper lemmas -/

theorem filterMap_option_map {α β : Type _} (f : α → β) (l : List (Option α)) :
    l.filterMap (Option.map f) = (l.filterMap id).map f := by
  induction l with
  | nil => rfl
  | cons hd tl ih => cases hd <;> simp [List.filterMap_cons, ih]

theorem mergePdfs_foldl {α : Type _} (inputs : List (Option (List α))) (acc : List α) :
    inputs.foldl (fun acc src =>
      match src with
      | none => acc
      | some pages => acc ++ pages) acc = acc ++ (inputs.filterMap id).flatten := by
  induction inputs generalizing acc with
  | nil => simp
  | cons hd tl ih => cases hd <;> simp [List.filterMap_cons, ih]

/-! ## C1: single-input dispatch rejection -/

/-- C1: for a single-input conversion type, if the type is not registered
in the `converters` dict or the filename's extension (after the last dot,
lowercased) is not in the type's accepted extension set, `convert_file`
issues one of its typed rejections and never reaches the
`converter.convert` call. -/
theorem C1_single_input_rejection (ct filename : String)
    (h1 : ct ≠ "merge_pdfs") (h2 : ct ≠ "merge_images")
    (h : converterKeys.contains ct = false ∨
      ∃ e, fileExtension filename = some e ∧ (acceptedExts ct).contains e = false) :
    convert_file ct filename = Outcome.noFile ∨
      convert_file ct filename = Outcome.invalidType ∨
      convert_file ct filename = Outcome.unsupportedExtension := by
  unfold convert_file
  rw [if_neg h1, if_neg h2]
  by_cases hf : filename = ""
  · left
    simp [hf]
  · rw [if_neg hf]
    by_cases hr : converterKeys.contains ct = true
    · right; right
      have hb : allowed_file filename ct = false := by
        rcases h with hcon | ⟨e, he, hce⟩
        · rw [hr] at hcon
          cases hcon
        · unfold allowed_file
          rw [he]
          exact hce
      rw [if_neg (not_not_intro hr), if_pos (by simp [hb])]
    · right; left
      rw [if_pos hr]

/-- C1 witness: type `png_to_jpg` with a `.gif` upload is rejected. -/
theorem C1_witness :
    convert_file "png_to_jpg" "animation.gif" = Outcome.noFile ∨
      convert_file "png_to_jpg" "animation.gif" = Outcome.invalidType ∨
      convert_file "png_to_jpg" "animation.gif" = Outcome.unsupportedExtension :=
  C1_single_input_rejection "png_to_jpg" "animation.gif" (by decide) (by decide)
    (Or.inr ⟨"gif", by decide, by decide⟩)

/-! ## C2: PDF merge -/

/-- C2: PDF merge skips every input that fails to open; when the
successfully opened inputs contribute at least one page it returns exactly
their concatenation in input order (so the output page count is the sum of
the opened inputs' page counts), and when zero usable pages result it
fails with the no-valid-pages error — raised before any save, so no empty
output file is produced. -/
theorem C2_pdf_merge {α : Type} (inputs : List (Option (List α))) :
    ((inputs.filterMap id).flatten ≠ [] →
      MergePDFs_convert inputs = Except.ok (inputs.filterMap id).flatten ∧
      (inputs.filterMap id).flatten.length =
        ((inputs.filterMap id).map List.length).sum) ∧
    ((inputs.filterMap id).flatten = [] →
      MergePDFs_convert inputs =
        Except.error "PDF merge failed: No valid PDF pages found to merge") := by
  have hfold := mergePdfs_foldl inputs []
  rw [List.nil_append] at hfold
  constructor
  · intro h
    refine ⟨?_, List.length_flatten _⟩
    simp only [MergePDFs_convert, hfold]
    rw [if_neg fun hlen => h (List.length_eq_zero.mp hlen)]
  · intro h
    simp only [MergePDFs_convert, hfold]
    rw [if_pos (List.length_eq_zero.mpr h)]

/-- C2 witness: of three inputs with page counts [3, 5, 2], the 3-page one
fails to open; the merge succeeds with the 7 remaining pages in order.
With every input failing, the merge reports the no-valid-pages error. -/
theorem C2_witness :
    MergePDFs_convert [none, some [0, 1, 2, 3, 4], some [5, 6]] =
      Except.ok ([0, 1, 2, 3, 4, 5, 6] : List Nat) ∧
    MergePDFs_convert ([none, none] : List (Option (List Nat))) =
      Except.error "PDF merge failed: No valid PDF pages found to merge" :=
  ⟨((C2_pdf_merge [none, some [0, 1, 2, 3, 4], some [5, 6]]).1 (by decide)).1,
   (C2_pdf_merge ([none, none] : List (Option (List Nat)))).2 (by decide)⟩

/-! ## C8: registry invariants -/

/-- C8: the two registry tables have duplicate-free keys (each conversion
type maps to exactly one extension set and one converter), the same key
sets, every accepted-extension set is non-empty, and the declared output
MIME type of a conversion type is a single fixed value: repeated lookups
agree. -/
theorem C8_registry :
    (ALLOWED_EXTENSIONS.map Prod.fst).Nodup ∧
    (converterMimetypes.map Prod.fst).Nodup ∧
    (∀ p ∈ ALLOWED_EXTENSIONS, p.2 ≠ []) ∧
    (∀ ct ∈ ALLOWED_EXTENSIONS.map Prod.fst, ct ∈ converterKeys) ∧
    (∀ ct ∈ converterKeys, ct ∈ ALLOWED_EXTENSIONS.map Prod.fst) ∧
    (∀ ct m₁ m₂, converterMimetypes.lookup ct = some m₁ →
      converterMimetypes.lookup ct = some m₂ → m₁ = m₂) := by
  refine ⟨by decide, by decide, by decide, by decide, by decide, ?_⟩
  intro ct m₁ m₂ h₁ h₂
  rw [h₁] at h₂
  exact Option.some.inj h₂

/-- C8 witness: the `png_to_jpg` entry has a non-empty extension set and a
registered converter whose MIME lookups agree. -/
theorem C8_witness :
    ("png_to_jpg", ["png"]).2 ≠ ([] : List String) ∧
    "png_to_jpg" ∈ converterKeys ∧
    ("image/jpeg" : String) = "image/jpeg" :=
  ⟨C8_registry.2.2.1 ("png_to_jpg", ["png"]) (by decide),
   C8_registry.2.2.2.1 "png_to_jpg" (by decide),
   C8_registry.2.2.2.2.2 "png_to_jpg" "image/jpeg" "image/jpeg" (by decide) (by decide)⟩

/-! ## C9: empty-content failures -/

theorem pyStripIsEmpty_append (s t : String) :
    pyStripIsEmpty (s ++ t) = (pyStripIsEmpty s && pyStripIsEmpty t) := by
  simp [pyStripIsEmpty, String.toList, String.data_append, List.all_append]

theorem pyJoin_blank (paragraphs : List String)
    (h : ∀ p ∈ paragraphs, pyStripIsEmpty p = true) :
    pyStripIsEmpty (pyJoin "\n" paragraphs) = true := by
  induction paragraphs with
  | nil => decide
  | cons x xs ih =>
    cases xs with
    | nil => exact h x (by simp)
    | cons y ys =>
      rw [pyJoin, pyStripIsEmpty_append, pyStripIsEmpty_append]
      rw [h x (by simp), ih fun p hp => h p (by simp [hp])]
      decide

/-- C9: a text source whose content is all whitespace, and a DOCX source
all of whose extracted paragraphs are all whitespace, make the TXT-to-PDF
and DOCX-to-PDF conversions fail with their empty-content errors, with no
file written to the working directory. -/
theorem C9_empty_content (content base_name output_dir : String)
    (paragraphs : List String) :
    (pyStripIsEmpty content = true →
      TXTToPDF_convert content base_name output_dir =
        (ConvOutcome.error "Text conversion failed: Text file appears to be empty", [])) ∧
    ((∀ p ∈ paragraphs, pyStripIsEmpty p = true) →
      DOCXToPDF_convert paragraphs base_name output_dir =
        (ConvOutcome.error "Document conversion failed: Document appears to be empty", [])) := by
  constructor
  · intro h
    simp [TXTToPDF_convert, h]
  · intro h
    simp [DOCXToPDF_convert, pyJoin_blank paragraphs h]

/-- C9 witness: concrete whitespace-only sources fail as claimed. -/
theorem C9_witness :
    TXTToPDF_convert " \n" "notes" "tmp" =
      (ConvOutcome.error "Text conversion failed: Text file appears to be empty", []) ∧
    DOCXToPDF_convert ["", "  "] "doc" "tmp" =
      (ConvOutcome.error "Document conversion failed: Document appears to be empty", []) :=
  ⟨(C9_empty_content " \n" "notes" "tmp" []).1 (by decide),
   (C9_empty_content "" "doc" "tmp" ["", "  "]).2 (by decide)⟩

/-! ## C10: merge converters accept a singleton input list -/

/-- C10: the dispatch layer (`handle_pdf_merge`) rejects a single upload,
but both merge converters themselves accept a singleton list: a single
readable PDF with at least one page merges to exactly its own pages, and a
single readable image is saved through the dedicated single-image path. -/
theorem C10_singleton_merge {α : Type} :
    (∀ f : String, handle_pdf_merge_validate [f] = MergeValidation.tooFewUploaded) ∧
    (∀ pages : List α, pages ≠ [] →
      MergePDFs_convert [some pages] = Except.ok pages) ∧
    (∀ d : Dim,
      MergeImages_convert [some d] = Except.ok (PdfSave.single (mergeProcessImage d))) := by
  refine ⟨?_, ?_, ?_⟩
  · intro f
    simp [handle_pdf_merge_validate]
  · intro pages h
    simp only [MergePDFs_convert, List.foldl_cons, List.foldl_nil, List.nil_append]
    rw [if_neg (by simpa [List.length_eq_zero] using h)]
  · intro d
    simp [MergeImages_convert, List.filterMap_cons]

/-- C10 witness: a one-element upload list is rejected by dispatch, yet
each converter succeeds on a singleton input. -/
theorem C10_witness :
    handle_pdf_merge_validate ["a.pdf"] = MergeValidation.tooFewUploaded ∧
    MergePDFs_convert [some [0, 1]] = Except.ok ([0, 1] : List Nat) ∧
    MergeImages_convert [some ⟨800, 600⟩] = Except.ok (PdfSave.single ⟨800, 600⟩) := by
  refine ⟨(@C10_singleton_merge Nat).1 "a.pdf",
    (@C10_singleton_merge Nat).2.1 [0, 1] (by decide), ?_⟩
  have h := (@C10_singleton_merge Nat).2.2 ⟨800, 600⟩
  rw [show mergeProcessImage ⟨800, 600⟩ = ⟨800, 600⟩ from rfl] at h
  exact h

/-! ## C3: image merge geometry -/

theorem div_mul_le_add (n d : Nat) (hd : 0 < d) : n ≤ n / d * d + d := by
  have he := Nat.div_add_mod n d
  have hm := Nat.mod_lt n hd
  set q := n / d * d with hq
  have : d * (n / d) = q := by rw [hq, Nat.mul_comm]
  omega

theorem le_ceil_mul (n d : Nat) (hd : 0 < d) : n ≤ (n + d - 1) / d * d := by
  have he := Nat.div_add_mod (n + d - 1) d
  have hm := Nat.mod_lt (n + d - 1) hd
  set q := (n + d - 1) / d * d with hq
  have : d * ((n + d - 1) / d) = q := by rw [hq, Nat.mul_comm]
  omega

theorem ceil_mul_le_add (n d : Nat) (hd : 0 < d) : (n + d - 1) / d * d ≤ n + d := by
  have h := Nat.div_mul_le_self (n + d - 1) d
  omega

theorem roundClosest_bounds (n d : Nat) (hd : 0 < d) :
    roundClosest n d * d ≤ n + d ∧ n ≤ roundClosest n d * d + d := by
  have h1 := Nat.div_mul_le_self n d
  have h2 := div_mul_le_add n d hd
  have h3 := le_ceil_mul n d hd
  have h4 := ceil_mul_le_add n d hd
  simp only [roundClosest]
  split
  · exact ⟨by omega, h2⟩
  · exact ⟨h4, by omega⟩

theorem round_aspect_bounds (n d : Nat) (hd : 0 < d) :
    round_aspect n d * d ≤ n + d ∧ n ≤ round_aspect n d * d + d := by
  have h := roundClosest_bounds n d hd
  unfold round_aspect
  rcases Nat.le_total (roundClosest n d) 1 with hc | hc
  · rw [Nat.max_eq_right hc]
    have hmul : roundClosest n d * d ≤ 1 * d := Nat.mul_le_mul_right d hc
    constructor
    · omega
    · omega
  · rw [Nat.max_eq_left hc]
    exact h

theorem round_aspect_le (n d m : Nat) (hd : 0 < d) (hm : 1 ≤ m) (h : n ≤ m * d) :
    round_aspect n d ≤ m := by
  unfold round_aspect
  apply Nat.max_le.mpr
  refine ⟨?_, hm⟩
  simp only [roundClosest]
  split
  · have := Nat.div_le_div_right (c := d) h
    rwa [Nat.mul_div_cancel m hd] at this
  · have h2 : n + d - 1 < (m + 1) * d := by
      have : (m + 1) * d = m * d + d := by ring
      omega
    have := (Nat.div_lt_iff_lt_mul hd).mpr h2
    omega

/-- C3: image merge over an ordered input list: unreadable images are
skipped; the operation fails only when zero images survive, and otherwise
the output document's pages are exactly the processed survivors in input
order.  An image already within the 2000 px cap keeps its size; an image
with a side above the cap is downsampled so its longer side is exactly
2000 with the shorter side the rounded proportional value (aspect ratio
preserved to within one rounding unit of the scaled side). -/
theorem C3_image_merge (inputs : List (Option Dim)) (d : Dim) :
    (inputs.filterMap id = [] →
      MergeImages_convert inputs =
        Except.error "Image merge failed: No valid images found to merge") ∧
    (inputs.filterMap id ≠ [] →
      ∃ plan, MergeImages_convert inputs = Except.ok plan ∧
        plan.pages = (inputs.filterMap id).map mergeProcessImage) ∧
    (d.width ≤ max_size → d.height ≤ max_size → mergeProcessImage d = d) ∧
    (max_size < d.width ∨ max_size < d.height →
      max (mergeProcessImage d).width (mergeProcessImage d).height = max_size ∧
      (d.width ≤ d.height →
        (mergeProcessImage d).height = max_size ∧
        (mergeProcessImage d).width * d.height ≤ max_size * d.width + d.height ∧
        max_size * d.width ≤ (mergeProcessImage d).width * d.height + d.height) ∧
      (d.height < d.width →
        (mergeProcessImage d).width = max_size ∧
        (mergeProcessImage d).height * d.width ≤ max_size * d.height + d.width ∧
        max_size * d.height ≤ (mergeProcessImage d).height * d.width + d.width)) := by
  refine ⟨?_, ?_, ?_, ?_⟩
  · intro h
    simp only [MergeImages_convert, filterMap_option_map, h, List.map_nil]
  · intro h
    simp only [MergeImages_convert, filterMap_option_map]
    rcases hl : (inputs.filterMap id).map mergeProcessImage with _ | ⟨x, xs⟩
    · exact absurd (by simpa using hl) h
    · cases xs with
      | nil => exact ⟨.single x, rfl, rfl⟩
      | cons y ys => exact ⟨.multi x (y :: ys), rfl, rfl⟩
  · intro hw hh
    unfold mergeProcessImage
    rw [if_neg (by omega)]
  · intro hbig
    unfold mergeProcessImage
    rw [if_pos hbig]
    unfold thumbnailSize
    rw [if_neg (by omega)]
    rcases le_or_lt d.width d.height with hwh | hhw
    · rw [if_pos hwh]
      have hhpos : 0 < d.height := by omega
      have hle : round_aspect (max_size * d.width) d.height ≤ max_size :=
        round_aspect_le _ _ _ hhpos (by norm_num [max_size])
          (Nat.mul_le_mul_left max_size hwh)
      have hb := round_aspect_bounds (max_size * d.width) d.height hhpos
      refine ⟨by simpa using Nat.max_eq_right hle, fun _ => ⟨rfl, hb.1, hb.2⟩, fun hc => ?_⟩
      omega
    · rw [if_neg (by omega)]
      have hwpos : 0 < d.width := by omega
      have hle : round_aspect (max_size * d.height) d.width ≤ max_size :=
        round_aspect_le _ _ _ hwpos (by norm_num [max_size])
          (Nat.mul_le_mul_left max_size hhw.le)
      have hb := round_aspect_bounds (max_size * d.height) d.width hwpos
      refine ⟨by simpa using Nat.max_eq_left hle, fun hc => ?_, fun _ => ⟨rfl, hb.1, hb.2⟩⟩
      omega

/-- C3 witness: merging a 1000x800, a 4000x1000 and a 600x400 image (with
one extra unreadable input skipped) yields a three-page document in input
order whose oversized page was downsampled to exactly 2000x500. -/
theorem C3_witness :
    (∃ plan,
      MergeImages_convert [some ⟨1000, 800⟩, some ⟨4000, 1000⟩, none, some ⟨600, 400⟩] =
        Except.ok plan ∧
      plan.pages = [⟨1000, 800⟩, ⟨2000, 500⟩, ⟨600, 400⟩]) ∧
    max (mergeProcessImage ⟨4000, 1000⟩).width (mergeProcessImage ⟨4000, 1000⟩).height =
      max_size := by
  constructor
  · obtain ⟨plan, h1, h2⟩ :=
      (C3_image_merge [some ⟨1000, 800⟩, some ⟨4000, 1000⟩, none, some ⟨600, 400⟩]
        ⟨4000, 1000⟩).2.1 (by decide)
    refine ⟨plan, h1, ?_⟩
    rw [h2]
    decide
  · exact ((C3_image_merge [] ⟨4000, 1000⟩).2.2.2 (by decide)).1

/-! ## C4: alpha normalization before encoding -/

/-- C4 counterexample: the image-merge (and image-to-PDF) normalization of
a fully transparent black RGBA pixel keeps it black by dropping the alpha
band, whereas compositing onto an opaque white background would make it
white — so those paths do not composite transparency onto white. -/
theorem C4_counterexample :
    MergeImages_normalize ⟨.RGBA, [], [⟨0, 0, 0, 0⟩]⟩ ≠
      whiteComposite ⟨.RGBA, [], [⟨0, 0, 0, 0⟩]⟩ ∧
    JPGToPDF_normalize ⟨.RGBA, [], [⟨0, 0, 0, 0⟩]⟩ ≠
      whiteComposite ⟨.RGBA, [], [⟨0, 0, 0, 0⟩]⟩ ∧
    (MergeImages_normalize ⟨.RGBA, [], [⟨0, 0, 0, 0⟩]⟩).pixels = [⟨0, 0, 0, 255⟩] ∧
    (whiteComposite ⟨.RGBA, [], [⟨0, 0, 0, 0⟩]⟩).pixels = [⟨255, 255, 255, 255⟩] := by
  decide

/-- C4 amended: the PNG-to-JPG (and WEBP-to-JPG) converter composites
RGBA, LA and P inputs onto an opaque white background before encoding;
the image-to-PDF and image-merge paths instead normalize with a plain RGB
mode conversion, which yields an opaque RGB image but discards the alpha
channel without white compositing (the raw color bands are kept). -/
theorem C4_amended (img : PilImage) :
    (img.mode = .RGBA ∨ img.mode = .LA → PNGToJPG_normalize img = whiteComposite img) ∧
    (img.mode = .P → PNGToJPG_normalize img = whiteComposite (pilConvertRGBA img)) ∧
    (JPGToPDF_normalize img).mode = .RGB ∧
    (MergeImages_normalize img).mode = .RGB ∧
    (img.mode ≠ .RGB →
      MergeImages_normalize img = pilConvertRGB img ∧
      JPGToPDF_normalize img = pilConvertRGB img) ∧
    (img.mode = .RGBA →
      (pilConvertRGB img).pixels = img.pixels.map fun p => ⟨p.r, p.g, p.b, 255⟩) := by
  refine ⟨?_, ?_, ?_, ?_, ?_, ?_⟩
  · intro h
    rcases h with h | h <;> simp [PNGToJPG_normalize, h]
  · intro h
    simp [PNGToJPG_normalize, h]
  · unfold JPGToPDF_normalize
    split
    · assumption
    · rfl
  · unfold MergeImages_normalize
    split
    · assumption
    · rfl
  · intro h
    constructor
    · unfold MergeImages_normalize
      rw [if_neg h]
    · unfold JPGToPDF_normalize
      rw [if_neg h]
  · intro h
    simp [pilConvertRGB, h, pixelToRGBA]

/-- C4 witness: on a concrete transparent RGBA image, PNG-to-JPG
composites onto white while image merge performs the plain conversion. -/
theorem C4_witness :
    PNGToJPG_normalize ⟨.RGBA, [], [⟨10, 20, 30, 0⟩]⟩ =
      whiteComposite ⟨.RGBA, [], [⟨10, 20, 30, 0⟩]⟩ ∧
    MergeImages_normalize ⟨.RGBA, [], [⟨10, 20, 30, 0⟩]⟩ =
      pilConvertRGB ⟨.RGBA, [], [⟨10, 20, 30, 0⟩]⟩ := by
  have h := C4_amended ⟨.RGBA, [], [⟨10, 20, 30, 0⟩]⟩
  exact ⟨h.1 (Or.inl rfl), (h.2.2.2.2.1 (by decide)).1⟩

/-! ## C5: subprocess timeouts and error propagation -/

/-- C5 counterexample: in a world where every subprocess call expires its
timeout (and the fallback document read succeeds), `DOCToPDFConverter`
returns success instead of failing with a timeout error — the claimed
fail-with-TimeoutError behavior does not hold for this subprocess-backed
converter. -/
theorem C5_counterexample :
    DOCToPDF_convert (fun _ _ => ProcResult.timedOut) (fun _ => true)
      (Except.ok "hello") "in.doc" "in" "tmp" = ConvOutcome.ok "tmp/in.pdf" := by
  decide

/-- C5 amended: the ffmpeg-backed converters run with the bounded timeouts
observed in the source (300 s audio, 600 s video), fail with an error
message carrying the captured stderr on a non-zero exit, and fail with a
timeout error when the timeout expires; the LibreOffice-backed DOC-to-PDF
converter runs with a 60 s timeout but, on non-zero exit or timeout, falls
back to a library-based conversion instead of failing. -/
theorem C5_amended :
    (∀ (run : Runner) (fe : String → Bool) (ip b dir : String),
      run (MP4ToMP3_cmd ip (dir ++ "/" ++ b ++ ".mp3")) 300 = ProcResult.timedOut →
      MP4ToMP3_convert run fe ip b dir =
        ConvOutcome.error "Conversion timed out. File may be too large.") ∧
    (∀ (run : Runner) (fe : String → Bool) (ip b dir : String) (rc : Int) (stderr : String),
      run (MP4ToMP3_cmd ip (dir ++ "/" ++ b ++ ".mp3")) 300 = ProcResult.completed rc stderr →
      rc ≠ 0 →
      MP4ToMP3_convert run fe ip b dir =
        ConvOutcome.error ("Audio conversion failed: Audio conversion failed: " ++ stderr)) ∧
    (∀ (run : Runner) (tm ip b dir : String),
      run (MP4ToAVI_cmd ip (dir ++ "/" ++ b ++ ".avi")) 600 = ProcResult.timedOut →
      MP4ToAVI_convert run tm ip b dir =
        ConvOutcome.error ("Video conversion failed: " ++ tm)) ∧
    (∀ (run : Runner) (tm ip b dir : String) (rc : Int) (stderr : String),
      run (MP4ToAVI_cmd ip (dir ++ "/" ++ b ++ ".avi")) 600 = ProcResult.completed rc stderr →
      rc ≠ 0 →
      MP4ToAVI_convert run tm ip b dir =
        ConvOutcome.error ("Video conversion failed: FFmpeg error: " ++ stderr)) ∧
    (∀ (run : Runner) (fe : String → Bool) (dc : Except String String) (ip b dir : String),
      run (libreofficeCmd ip dir) 60 = ProcResult.timedOut →
      DOCToPDF_convert run fe dc ip b dir =
        DOCToPDF_fallback fe dc (dir ++ "/" ++ b ++ ".pdf")) ∧
    (∀ (run : Runner) (fe : String → Bool) (dc : Except String String)
        (ip b dir : String) (rc : Int) (stderr : String),
      run (libreofficeCmd ip dir) 60 = ProcResult.completed rc stderr →
      rc ≠ 0 →
      DOCToPDF_convert run fe dc ip b dir =
        DOCToPDF_fallback fe dc (dir ++ "/" ++ b ++ ".pdf")) := by
  refine ⟨?_, ?_, ?_, ?_, ?_, ?_⟩
  · intro run fe ip b dir hrun
    simp only [MP4ToMP3_convert, hrun]
  · intro run fe ip b dir rc stderr hrun hrc
    simp only [MP4ToMP3_convert, hrun]
    rw [if_pos hrc]
  · intro run tm ip b dir hrun
    simp only [MP4ToAVI_convert, hrun]
  · intro run tm ip b dir rc stderr hrun hrc
    simp only [MP4ToAVI_convert, hrun]
    rw [if_pos hrc]
  · intro run fe dc ip b dir hrun
    simp only [DOCToPDF_convert, hrun]
    rw [if_neg (by simp)]
  · intro run fe dc ip b dir rc stderr hrun hrc
    simp only [DOCToPDF_convert, hrun]
    rw [if_neg (by simp [hrc])]

/-- C5 witness: concrete worlds exercising each amended case. -/
theorem C5_witness :
    MP4ToMP3_convert (fun _ _ => ProcResult.timedOut) (fun _ => true) "a.mp4" "a" "tmp" =
      ConvOutcome.error "Conversion timed out. File may be too large." ∧
    MP4ToMP3_convert (fun _ _ => ProcResult.completed 1 "boom") (fun _ => true) "a.mp4" "a" "tmp" =
      ConvOutcome.error "Audio conversion failed: Audio conversion failed: boom" ∧
    MP4ToAVI_convert (fun _ _ => ProcResult.timedOut) "expired" "a.mp4" "a" "tmp" =
      ConvOutcome.error "Video conversion failed: expired" ∧
    MP4ToAVI_convert (fun _ _ => ProcResult.completed 1 "boom") "expired" "a.mp4" "a" "tmp" =
      ConvOutcome.error "Video conversion failed: FFmpeg error: boom" ∧
    DOCToPDF_convert (fun _ _ => ProcResult.timedOut) (fun _ => true)
        (Except.error "bad doc") "a.doc" "a" "tmp" =
      DOCToPDF_fallback (fun _ => true) (Except.error "bad doc") ("tmp" ++ "/" ++ "a" ++ ".pdf") ∧
    DOCToPDF_convert (fun _ _ => ProcResult.completed 77 "lo failed") (fun _ => true)
        (Except.error "bad doc") "a.doc" "a" "tmp" =
      DOCToPDF_fallback (fun _ => true) (Except.error "bad doc") ("tmp" ++ "/" ++ "a" ++ ".pdf") := by
  refine ⟨?_, ?_, ?_, ?_, ?_, ?_⟩
  · exact C5_amended.1 _ _ _ _ _ rfl
  · have h := C5_amended.2.1 (fun _ _ => ProcResult.completed 1 "boom")
      (fun _ => true) "a.mp4" "a" "tmp" 1 "boom" rfl (by decide)
    rw [h]
    decide
  · exact C5_amended.2.2.1 _ _ _ _ _ rfl
  · have h := C5_amended.2.2.2.1 (fun _ _ => ProcResult.completed 1 "boom")
      "expired" "a.mp4" "a" "tmp" 1 "boom" rfl (by decide)
    rw [h]
    decide
  · exact C5_amended.2.2.2.2.1 _ _ _ _ _ _ rfl
  · exact C5_amended.2.2.2.2.2 _ _ _ _ _ _ 77 "lo failed" rfl (by decide)

/-! ## C6: PDF-to-PNG archive packaging and cleanup -/

theorem runFs_creates (ps : List (List String)) (fs : List (List String)) :
    (ps.map FsOp.create).foldl applyFsOp fs = fs ++ ps := by
  induction ps generalizing fs with
  | nil => simp
  | cons p ps ih => simp [applyFsOp, ih]

theorem underDir_self_append (d rest : List String) : underDir d (d ++ rest) = true := by
  induction d with
  | nil => rfl
  | cons a as ih => simp [underDir, ih]

/-- C6: on an N-page PDF the converter produces exactly one PNG entry per
page, packages all of them into one ZIP whose entry names carry the
1-based page number, returns the archive path, and after packaging the
per-page files (and their directory) are removed so that the archive is
the only converter-created file remaining in the working directory. -/
theorem C6_pdf_to_png (n : Nat) (output_dir base : String) :
    (PDFToPNG_convert n output_dir base).zipEntries.length = n ∧
    (∀ i, i < n → (PDFToPNG_convert n output_dir base).zipEntries.getD i "" =
      base ++ "_page_" ++ pad3 (i + 1) ++ ".png") ∧
    (PDFToPNG_convert n output_dir base).dirState = [PDFToPNG_zipPath output_dir base] ∧
    (PDFToPNG_convert n output_dir base).returnedPath = PDFToPNG_zipPath output_dir base := by
  refine ⟨by simp [PDFToPNG_convert], ?_, ?_, rfl⟩
  · intro i hi
    have hlen : i < ((List.range n).map (pageFilename base)).length := by simpa using hi
    rw [show (PDFToPNG_convert n output_dir base).zipEntries =
        (List.range n).map (pageFilename base) from rfl]
    rw [List.getD_eq_getElem _ _ hlen]
    simp [pageFilename]
  · show runFs (PDFToPNG_ops n output_dir base) = _
    unfold runFs PDFToPNG_ops
    rw [show ((List.range n).map fun i =>
          FsOp.create (PDFToPNG_pngDir output_dir base ++ [pageFilename base i])) =
        ((List.range n).map fun i =>
          PDFToPNG_pngDir output_dir base ++ [pageFilename base i]).map FsOp.create
      from (List.map_map _ _ _).symm]
    rw [List.foldl_append, runFs_creates]
    simp only [List.nil_append, List.foldl_cons, List.foldl_nil]
    simp only [applyFsOp]
    rw [List.filter_append]
    have hne : ((base ++ "_pages" : String) == (base ++ "_pages.zip")) = false := by
      rw [beq_eq_false_iff_ne]
      intro hcontra
      have hlen2 := congrArg String.length hcontra
      rw [String.length_append, String.length_append] at hlen2
      have h6 : ("_pages" : String).length = 6 := by decide
      have h10 : ("_pages.zip" : String).length = 10 := by decide
      omega
    have hz : underDir (PDFToPNG_pngDir output_dir base)
        (PDFToPNG_zipPath output_dir base) = false := by
      simp [PDFToPNG_pngDir, PDFToPNG_zipPath, underDir, hne]
    have hp : ((List.range n).map fun i =>
        PDFToPNG_pngDir output_dir base ++ [pageFilename base i]).filter
          (fun p => !underDir (PDFToPNG_pngDir output_dir base) p) = [] := by
      rw [List.filter_eq_nil_iff]
      intro p hmem
      rw [List.mem_map] at hmem
      obtain ⟨i, _, rfl⟩ := hmem
      simp [underDir_self_append]
    rw [hp]
    simp [hz]

/-- C6 witness: a two-page PDF yields two page-numbered ZIP entries and
leaves only the archive behind. -/
theorem C6_witness :
    (PDFToPNG_convert 2 "tmp" "doc").zipEntries.length = 2 ∧
    (PDFToPNG_convert 2 "tmp" "doc").zipEntries.getD 0 "" = "doc_page_001.png" ∧
    (PDFToPNG_convert 2 "tmp" "doc").zipEntries.getD 1 "" = "doc_page_002.png" ∧
    (PDFToPNG_convert 2 "tmp" "doc").dirState = [["tmp", "doc_pages.zip"]] := by
  have h := C6_pdf_to_png 2 "tmp" "doc"
  refine ⟨h.1, ?_, ?_, ?_⟩
  · rw [h.2.1 0 (by decide)]
    decide
  · rw [h.2.1 1 (by decide)]
    decide
  · rw [h.2.2.1]
    decide

/-! ## C7: output filename derivation -/

/-- Decidable comparison of a type's output-name suffix against a dot
followed by its target extension. -/
def suffixMatchesExt (conversion_type : String) : Bool :=
  match targetExtension conversion_type, outputSuffix conversion_type with
  | some e, some s => s == "." ++ e
  | _, _ => false

/-- C7 counterexample: `compress_pdf` is a registered single-input
conversion type, yet its successful output filename appends
`_compressed.pdf` to the base name instead of just the target extension
`.pdf`, and it is neither a merge output nor the raster-export archive —
a third exception the claim does not allow. -/
theorem C7_counterexample :
    "compress_pdf" ∈ singleInputTypes ∧
    targetExtension "compress_pdf" = some "pdf" ∧
    outputFilename "compress_pdf" "report" = some "report_compressed.pdf" ∧
    outputFilename "compress_pdf" "report" ≠ some ("report" ++ "." ++ "pdf") := by
  refine ⟨by decide, rfl, rfl, ?_⟩
  intro h
  have := Option.some.inj h
  have hlen := congrArg String.length this
  revert hlen
  decide

/-- C7 amended: every single-input conversion type except the
raster-export archive (`pdf_to_png`, page-suffixed ZIP name) and the PDF
compressor (`compress_pdf`, `_compressed` suffix) returns the input base
name with a dot and the target extension appended; the merge converters
are not single-input and use fixed names. -/
theorem C7_output_names (ct base : String) (hct : ct ∈ singleInputTypes)
    (h1 : ct ≠ "pdf_to_png") (h2 : ct ≠ "compress_pdf") :
    ∃ e, targetExtension ct = some e ∧
      outputFilename ct base = some (base ++ "." ++ e) := by
  have hall : ∀ x ∈ singleInputTypes,
      x = "pdf_to_png" ∨ x = "compress_pdf" ∨ suffixMatchesExt x = true := by decide
  have hb : suffixMatchesExt ct = true := by
    rcases hall ct hct with h | h | h
    · exact absurd h h1
    · exact absurd h h2
    · exact h
  unfold suffixMatchesExt at hb
  rcases he : targetExtension ct with _ | e
  · rw [he] at hb
    cases hb
  · rcases hs : outputSuffix ct with _ | s
    · rw [he, hs] at hb
      cases hb
    · rw [he, hs] at hb
      rw [beq_iff_eq] at hb
      refine ⟨e, rfl, ?_⟩
      rw [String.append_assoc, ← hb]
      simp [outputFilename, hs]

/-- C7 witness: `png_to_jpg` on base name `photo` yields `photo.jpg`. -/
theorem C7_witness :
    targetExtension "png_to_jpg" = some "jpg" ∧
    outputFilename "png_to_jpg" "photo" = some "photo.jpg" := by
  obtain ⟨e, he, hname⟩ := C7_output_names "png_to_jpg" "photo" (by decide) (by decide) (by decide)
  have : e = "jpg" := Option.some.inj (he.symm.trans (by decide))
  subst this
  exact ⟨he, by rw [hname]; decide⟩

end FileConv
